import Mathlib

/-!
Shallow embedding of the football-analytics ingestion pipeline
(`src/parser/parse_events.py`, `src/parser/parse_stats.py`,
`src/parser/references.py`) together with proofs about the claims of the
specification.

Conventions of the embedding:
* Python dictionaries with a fixed shape become Lean structures whose fields
  are `Option`-typed: `none` models an absent key, matching `key in d` tests
  and `d.get(key)` returning `None`.
* A pandas `DataFrame` of rows keyed by a match identifier becomes a
  `List` of rows.
* The parquet file underlying one accumulated table becomes an `Option Table`
  (`none` = the file does not exist) carried inside a small file-system
  state; whether a read / write raises is an explicit boolean of that state.
* Functions that can raise become `Except String` (or return a designated
  value when the Python code catches the exception itself).
* Library calls external to the repository (pandas timestamp parsing,
  `pd.to_numeric`) are parameters of the embedding: the claims under study
  do not depend on which strings those library routines accept.
-/

/-! ## Accumulation Store (`EventsDataParser.load_or_append_*`,
`StatsParser.load_and_save_stats`) -/

/-- One row of an accumulated table, reduced to the fields the merge layer
inspects: the match identifier column (`matchId` / `match_id`) and an opaque
payload standing for every other column. -/
structure Row where
  matchId : String
  payload : String
deriving DecidableEq, Repr

/-- A pandas DataFrame of rows, in order. -/
abbrev Table := List Row

/-- State of one parquet file as seen by `EventsDataParser.load_or_append_*`:
the contents (or `none` when `parquet_path.exists()` is false) and whether
`to_parquet` raises. -/
structure FS where
  file : Option Table
  writeFails : Bool
deriving DecidableEq, Repr

/-- `EventsDataParser.load_or_append_metadata` (parse_events.py:190-218).
With `df_metadata is None`: return the stored table, or raise
`FileNotFoundError` when the parquet does not exist.  Otherwise concatenate
the existing table (if any) with the new one and write the result; a failing
`to_parquet` propagates as an error. -/
def load_or_append_metadata (df_metadata : Option Table) (fs : FS) :
    Except String (Table × FS) :=
  match df_metadata with
  | none =>
    match fs.file with
    | some t => .ok (t, fs)
    | none => .error "FileNotFoundError: Parquet file not found"
  | some df =>
    let df_combined :=
      match fs.file with
      | some df_existing => df_existing ++ df
      | none => df
    if fs.writeFails then .error "to_parquet failed"
    else .ok (df_combined, { fs with file := some df_combined })

/-- `EventsDataParser.load_or_append_events` (parse_events.py:220-248); the
body is identical to `load_or_append_metadata` up to the file name. -/
def load_or_append_events (df_events : Option Table) (fs : FS) :
    Except String (Table × FS) :=
  match df_events with
  | none =>
    match fs.file with
    | some t => .ok (t, fs)
    | none => .error "FileNotFoundError: Parquet file not found"
  | some df =>
    let df_combined :=
      match fs.file with
      | some df_existing => df_existing ++ df
      | none => df
    if fs.writeFails then .error "to_parquet failed"
    else .ok (df_combined, { fs with file := some df_combined })

/-- `EventsDataParser.load_or_append_qualifiers` (parse_events.py:250-278);
the body is identical to `load_or_append_metadata` up to the file name. -/
def load_or_append_qualifiers (df_qualifiers : Option Table) (fs : FS) :
    Except String (Table × FS) :=
  match df_qualifiers with
  | none =>
    match fs.file with
    | some t => .ok (t, fs)
    | none => .error "FileNotFoundError: Parquet file not found"
  | some df =>
    let df_combined :=
      match fs.file with
      | some df_existing => df_existing ++ df
      | none => df
    if fs.writeFails then .error "to_parquet failed"
    else .ok (df_combined, { fs with file := some df_combined })

/-- State of the stats parquet file for `StatsParser.load_and_save_stats`:
contents, whether `pd.read_parquet` raises, whether `to_parquet` raises
(both are caught inside the Python function). -/
structure StatsFS where
  file : Option Table
  readFails : Bool
  writeFails : Bool
deriving DecidableEq, Repr

/-- `StatsParser.load_and_save_stats` (parse_stats.py:204-288).  The Python
function catches every storage exception itself, so the embedding is total:
it returns the dataframe the function returns together with the file state
left behind.  `append` is a keyword argument defaulting to `False` in the
source; here it is an explicit argument and every call site passes it. -/
def load_and_save_stats (new_df : Option Table) (append : Bool)
    (fs : StatsFS) : Table × StatsFS :=
  let existing_df : Table :=
    match fs.file with
    | some t => if fs.readFails then [] else t
    | none => []
  let doAppend := append && (match new_df with
    | some df => !df.isEmpty
    | none => false)
  if doAppend then
    let df := new_df.getD []
    let combined_df :=
      if existing_df.isEmpty then df
      else
        let existing_match_ids := (existing_df.map Row.matchId).dedup
        let new_match_ids := (df.map Row.matchId).dedup
        let duplicate_matches :=
          existing_match_ids.filter (fun m => new_match_ids.contains m)
        let existing_kept :=
          if duplicate_matches.isEmpty then existing_df
          else existing_df.filter
            (fun r => !duplicate_matches.contains r.matchId)
        existing_kept ++ df
    if fs.writeFails then (combined_df, fs)
    else (combined_df, { fs with file := some combined_df })
  else
    (existing_df, fs)

/-! ## Reference Catalog (`src/parser/references.py`) -/

/-- `OptaEventTypeReference.EVENT_TYPES` (references.py:14-118): map from the
provider event-type code to (name, description), embedded as an association
list; every Python entry carries both keys. -/
def EVENT_TYPES : List (Int × String × String) := [
  (1, "Pass", "Any pass attempted from one player to another"),
  (2, "Offside Pass", "Attempted pass to player in offside position"),
  (3, "Take On", "Attempted dribble past opponent"),
  (4, "Foul", "Foul committed resulting in free kick"),
  (5, "Out", "Ball goes out for throw-in or goal kick"),
  (6, "Corner Awarded", "Ball goes out for corner kick"),
  (7, "Tackle", "Dispossess opponent of ball"),
  (8, "Interception", "Intercept pass between opposition"),
  (9, "Turnover", "Unforced error/loss of possession (NO LONGER USED)"),
  (10, "Save", "Goalkeeper saves shot"),
  (11, "Claim", "Goalkeeper catches crossed ball"),
  (12, "Clearance", "Clear ball from defensive zone"),
  (13, "Miss", "Shot wide or over goal"),
  (14, "Post", "Ball hits frame of goal"),
  (15, "Attempt Saved", "Shot saved"),
  (16, "Goal", "Goal scored"),
  (17, "Card", "Yellow or red card shown"),
  (18, "Player off", "Substitution off"),
  (19, "Player on", "Substitution on"),
  (20, "Player retired", "Player forced to leave pitch"),
  (21, "Player returns", "Player returns after injury"),
  (22, "Player becomes goalkeeper", "Outfield player replaces GK"),
  (23, "Goalkeeper becomes player", "GK becomes outfield player"),
  (24, "Condition change", "Change in playing conditions"),
  (25, "Official change", "Referee or linesman replaced"),
  (27, "Start delay", "Stoppage in play"),
  (28, "End delay", "Stoppage ends, play resumes"),
  (30, "End", "End of match period"),
  (32, "Start", "Start of match period"),
  (34, "Team set up", "Team lineup; qualifiers show formation"),
  (35, "Player changed position", "Player moved to different position"),
  (36, "Player changed Jersey number", "Player forced to change shirt"),
  (37, "Collection End", "End of match data collection"),
  (38, "Temp_Goal", "Goal pending additional qualifiers"),
  (39, "Temp_Attempt", "Shot pending additional qualifiers"),
  (40, "Formation change", "Team alters formation"),
  (41, "Punch", "Goalkeeper punches ball clear"),
  (42, "Good Skill", "Good skill shown (NO LONGER USED)"),
  (43, "Deleted event", "Event deleted"),
  (44, "Aerial", "Aerial duel (50/50)"),
  (45, "Challenge", "Player fails to win ball in dribble"),
  (47, "Rescinded card", "Card rescinded post-match"),
  (49, "Ball recovery", "Team wins possession"),
  (50, "Dispossessed", "Player loses possession"),
  (51, "Error", "Player mistake losing ball"),
  (52, "Keeper pick-up", "Goalkeeper picks up ball"),
  (53, "Cross not claimed", "GK fails to catch cross"),
  (54, "Smother", "GK covers ball in box"),
  (55, "Offside provoked", "Defender triggers offside"),
  (56, "Shield ball opp", "Defender shields ball from opponent"),
  (57, "Foul throw-in", "Throw-in taken incorrectly"),
  (58, "Penalty faced", "GK faces penalty"),
  (59, "Keeper Sweeper", "Keeper off line to clear ball"),
  (60, "Chance missed", "Player in good position doesn\x27t receive pass"),
  (61, "Ball touch", "Bad touch losing possession"),
  (63, "Temp_Save", "Save without full details"),
  (64, "Resume", "Match resumes after abandonment"),
  (65, "Contentious referee decision", "Major talking point by ref"),
  (66, "Possession Data", "Possession event every 5 mins"),
  (67, "50/50", "Duel for loose ball (GERMAN ONLY)"),
  (68, "Referee Drop Ball", "Ref stops, drops ball"),
  (69, "Failed to Block", "Attempt to block lost"),
  (70, "Injury Time Announcement", "Injury time awarded"),
  (71, "Coach Setup", "Coach type event"),
  (72, "Caught Offside", "Player in offside position"),
  (73, "Other Ball Contact", "Automated DFL event"),
  (74, "Blocked Pass", "Defender blocks pass")]

/-- `cls.EVENT_TYPES.get(type_id, {})`: association-list lookup. -/
def eventTypeLookup (type_id : Int) : Option (String × String) :=
  (EVENT_TYPES.find? (fun e => e.1 == type_id)).map (fun e => e.2)

namespace OptaEventTypeReference

/-- `OptaEventTypeReference.get_type_name` (references.py:120-122). -/
def get_type_name (type_id : Int) : String :=
  match eventTypeLookup type_id with
  | some nd => nd.1
  | none => "Unknown (ID: " ++ toString type_id ++ ")"

/-- `OptaEventTypeReference.get_type_description` (references.py:124-126). -/
def get_type_description (type_id : Int) : String :=
  match eventTypeLookup type_id with
  | some nd => nd.2
  | none => "No description"

end OptaEventTypeReference

/-- `QualifierReference` dataclass (references.py:5-10). -/
structure QualifierReference where
  qualifier_id : Int
  name : String
  value_type : String
  description : String
deriving DecidableEq, Repr

/-- Chunk 1 of `OptaQualifierReference.QUALIFIERS`; the literal is
split because very long list literals elaborate slowly. -/
def QUALIFIERS_1 : List (Int × QualifierReference) := [
  (1, ⟨1, "Long ball", "Boolean", "Pass over 35 yards"⟩),
  (2, ⟨2, "Cross", "Boolean", "Ball from wide areas into box"⟩),
  (3, ⟨3, "Head pass", "Boolean", "Pass made with head"⟩),
  (4, ⟨4, "Through ball", "Boolean", "Ball for attacking run"⟩),
  (5, ⟨5, "Free kick taken", "Boolean", "Free kick taken"⟩),
  (6, ⟨6, "Corner taken", "Boolean", "Corner kick taken"⟩),
  (7, ⟨7, "Players caught offside", "Player ID", "Player in offside"⟩),
  (8, ⟨8, "Goal disallowed", "Boolean", "Pass led to disallowed goal"⟩),
  (9, ⟨9, "Penalty", "Boolean", "Penalty kick"⟩),
  (15, ⟨15, "Head", "Boolean", "Action with head"⟩),
  (20, ⟨20, "Right footed", "Boolean", "Shot with right foot"⟩),
  (21, ⟨21, "Other body part", "Boolean", "Shot with other body part"⟩),
  (28, ⟨28, "Own goal", "Boolean", "Own goal"⟩),
  (29, ⟨29, "Assisted", "Boolean", "Shot had assist"⟩),
  (30, ⟨30, "Involved", "Player IDs", "Players in lineup"⟩),
  (31, ⟨31, "Yellow card", "Boolean", "Yellow card shown"⟩),
  (32, ⟨32, "Second yellow", "Boolean", "Second yellow card"⟩),
  (33, ⟨33, "Red card", "Boolean", "Red card shown"⟩),
  (34, ⟨34, "Referee abuse", "Boolean", "Card for abuse to ref"⟩),
  (35, ⟨35, "Argument", "Boolean", "Card for argument"⟩),
  (36, ⟨36, "Fight", "Boolean", "Card for fight"⟩),
  (37, ⟨37, "Time wasting", "Boolean", "Card for time wasting"⟩),
  (38, ⟨38, "Excessive celebration", "Boolean", "Card for celebration"⟩),
  (39, ⟨39, "Crowd interaction", "Boolean", "Card for crowd contact"⟩),
  (40, ⟨40, "Other reason", "Boolean", "Card for unknown reason"⟩),
  (41, ⟨41, "Injury", "Boolean", "Substitution for injury"⟩),
  (42, ⟨42, "Tactical", "Boolean", "Substitution for tactics"⟩),
  (44, ⟨44, "Player position", "Text", "GK/DEF/MID/FWD/SUB"⟩),
  (50, ⟨50, "Official position", "1-4", "Referee/Linesman positions"⟩),
  (51, ⟨51, "Official ID", "ID", "Unique official ID"⟩),
  (53, ⟨53, "Injured player ID", "Player ID", "Injured player"⟩),
  (54, ⟨54, "End cause", "1-100", "Reason for match end"⟩),
  (56, ⟨56, "Zone", "Text", "Back/Left/Centre/Right"⟩),
  (57, ⟨57, "End type", "Type", "End of match period"⟩),
  (59, ⟨59, "Jersey number", "Integer", "Shirt number"⟩),
  (72, ⟨72, "Left footed", "Boolean", "Shot with left foot"⟩),
  (88, ⟨88, "High claim", "Boolean", "GK high claim"⟩),
  (89, ⟨89, "1 on 1", "Boolean", "Attacker 1-on-1 with GK"⟩),
  (90, ⟨90, "Deflected save", "Boolean", "GK deflected save"⟩),
  (91, ⟨91, "Dive and deflect", "Boolean", "GK dive and deflect"⟩)]

/-- Chunk 2 of `OptaQualifierReference.QUALIFIERS`; the literal is
split because very long list literals elaborate slowly. -/
def QUALIFIERS_2 : List (Int × QualifierReference) := [
  (92, ⟨92, "Catch", "Boolean", "GK catches"⟩),
  (93, ⟨93, "Dive and catch", "Boolean", "GK dive and catch"⟩),
  (95, ⟨95, "Back pass", "Boolean", "Illegal GK back pass"⟩),
  (106, ⟨106, "Attacking pass", "Boolean", "Pass in opposition half"⟩),
  (107, ⟨107, "Throw-in", "Boolean", "Throw-in taken"⟩),
  (108, ⟨108, "Volley", "Boolean", "Shot on volley"⟩),
  (109, ⟨109, "Overhead", "Boolean", "Overhead kick"⟩),
  (113, ⟨113, "Strong", "Boolean", "Strong shot"⟩),
  (114, ⟨114, "Weak", "Boolean", "Weak shot"⟩),
  (115, ⟨115, "Rising", "Boolean", "Rising shot"⟩),
  (116, ⟨116, "Dipping", "Boolean", "Dipping shot"⟩),
  (117, ⟨117, "Lob", "Boolean", "Lob attempt"⟩),
  (120, ⟨120, "Swerve left", "Boolean", "Swerve left"⟩),
  (121, ⟨121, "Swerve right", "Boolean", "Swerve right"⟩),
  (122, ⟨122, "Swerve moving", "Boolean", "Multiple swerves"⟩),
  (123, ⟨123, "Keeper throw", "Boolean", "GK throws"⟩),
  (124, ⟨124, "Goal kick", "Boolean", "Goal kick taken"⟩),
  (128, ⟨128, "Punch", "Boolean", "GK punches"⟩),
  (130, ⟨130, "Team formation", "Formation ID", "Team formation"⟩),
  (131, ⟨131, "Team player formation", "1-11", "Player formation slot"⟩),
  (132, ⟨132, "Dive", "Boolean", "Simulation/dive"⟩),
  (133, ⟨133, "Deflection", "Boolean", "Shot deflection"⟩),
  (136, ⟨136, "Keeper touched", "Boolean", "GK touched goal"⟩),
  (137, ⟨137, "Keeper saved", "Boolean", "GK saved wide shot"⟩),
  (138, ⟨138, "Hit woodwork", "Boolean", "Hit post/bar"⟩),
  (139, ⟨139, "Own player", "Boolean", "Shot saved by defender"⟩),
  (140, ⟨140, "Pass End X", "0-100", "X coordinate of pass end"⟩),
  (141, ⟨141, "Pass End Y", "0-100", "Y coordinate of pass end"⟩),
  (144, ⟨144, "Deleted event type", "Event ID", "Event to remove"⟩),
  (152, ⟨152, "Direct", "Boolean", "Direct free kick"⟩),
  (153, ⟨153, "Not past goal line", "Boolean", "Shot missed"⟩),
  (154, ⟨154, "Intentional assist", "Boolean", "Intentional assist"⟩),
  (155, ⟨155, "Chipped", "Boolean", "Chipped pass"⟩),
  (156, ⟨156, "Lay-off", "Boolean", "Lay-off pass"⟩),
  (157, ⟨157, "Launch", "Boolean", "Launch pass"⟩),
  (158, ⟨158, "Persistent infringement", "Boolean", "Persistent foul"⟩),
  (159, ⟨159, "Foul language", "Boolean", "Foul language"⟩),
  (160, ⟨160, "Throw-in set piece", "Boolean", "Throw-in set piece"⟩),
  (161, ⟨161, "Encroachment", "Boolean", "Encroachment"⟩),
  (162, ⟨162, "Leaving field", "Boolean", "Leaving field"⟩)]

/-- Chunk 3 of `OptaQualifierReference.QUALIFIERS`; the literal is
split because very long list literals elaborate slowly. -/
def QUALIFIERS_3 : List (Int × QualifierReference) := [
  (163, ⟨163, "Entering field", "Boolean", "Entering field"⟩),
  (164, ⟨164, "Spitting", "Boolean", "Spitting"⟩),
  (165, ⟨165, "Professional foul", "Boolean", "Professional foul"⟩),
  (166, ⟨166, "Handling on line", "Boolean", "Handball block"⟩),
  (168, ⟨168, "Flick-on", "Boolean", "Flick-on pass"⟩),
  (171, ⟨171, "Rescinded card", "Boolean", "Card rescinded"⟩),
  (172, ⟨172, "No impact on timing", "Boolean", "Booked off bench"⟩),
  (173, ⟨173, "Parried safe", "Boolean", "GK parries safe"⟩),
  (174, ⟨174, "Parried danger", "Boolean", "GK parries to danger"⟩),
  (175, ⟨175, "Fingertip", "Boolean", "GK fingertip save"⟩),
  (176, ⟨176, "Caught", "Boolean", "GK catches"⟩),
  (177, ⟨177, "Collected", "Boolean", "GK collects"⟩),
  (178, ⟨178, "Standing", "Boolean", "GK standing save"⟩),
  (179, ⟨179, "Diving", "Boolean", "GK diving save"⟩),
  (180, ⟨180, "Stooping", "Boolean", "GK stooping save"⟩),
  (181, ⟨181, "Reaching", "Boolean", "GK reaching save"⟩),
  (182, ⟨182, "Hands", "Boolean", "GK saves with hands"⟩),
  (183, ⟨183, "Feet", "Boolean", "GK saves with feet"⟩),
  (184, ⟨184, "Dissent", "Boolean", "Card for dissent"⟩),
  (186, ⟨186, "Scored", "Stat", "Shot not saved = goal"⟩),
  (187, ⟨187, "Saved", "Stat", "Shot saved"⟩),
  (188, ⟨188, "Missed", "Stat", "Shot missed"⟩),
  (189, ⟨189, "Player not visible", "Boolean", "Replay shown"⟩),
  (191, ⟨191, "Off ball foul", "Boolean", "Off-ball foul"⟩),
  (192, ⟨192, "Block by hand", "Boolean", "Block by hand"⟩),
  (194, ⟨194, "Captain", "Player ID", "Team captain ID"⟩),
  (195, ⟨195, "Pull back", "Boolean", "Pull back pass"⟩),
  (196, ⟨196, "Switch of play", "Boolean", "Switch of play"⟩),
  (197, ⟨197, "Team kit", "Kit ID", "Team kit ID"⟩),
  (198, ⟨198, "GK hoof", "Boolean", "GK kicks long"⟩),
  (199, ⟨199, "GK kick from hands", "Boolean", "GK kicks from hands"⟩),
  (200, ⟨200, "Referee stop", "Boolean", "Referee stops"⟩),
  (201, ⟨201, "Referee delay", "Boolean", "Referee delay"⟩),
  (202, ⟨202, "Weather problem", "Boolean", "Weather stoppage"⟩),
  (203, ⟨203, "Crowd trouble", "Boolean", "Crowd trouble"⟩),
  (204, ⟨204, "Fire", "Boolean", "Fire in stadium"⟩),
  (205, ⟨205, "Object thrown", "Boolean", "Object from crowd"⟩),
  (206, ⟨206, "Spectator on pitch", "Boolean", "Spectator on pitch"⟩),
  (207, ⟨207, "Awaiting decision", "Boolean", "Awaiting decision"⟩),
  (208, ⟨208, "Referee injury", "Boolean", "Referee injury"⟩)]

/-- Chunk 4 of `OptaQualifierReference.QUALIFIERS`; the literal is
split because very long list literals elaborate slowly. -/
def QUALIFIERS_4 : List (Int × QualifierReference) := [
  (209, ⟨209, "Game end", "Boolean", "Game finished"⟩),
  (210, ⟨210, "Assist", "Boolean", "Pass is assist"⟩),
  (212, ⟨212, "Length", "Yards", "Pass distance in yards"⟩),
  (213, ⟨213, "Angle", "Radians", "Ball angle (0-6.28)"⟩),
  (214, ⟨214, "Big chance", "Boolean", "Big chance"⟩),
  (215, ⟨215, "Individual play", "Boolean", "Individual play"⟩),
  (217, ⟨217, "2nd assisted", "Boolean", "2nd assist"⟩),
  (218, ⟨218, "2nd assist", "Boolean", "Pass created assist"⟩),
  (219, ⟨219, "Players on both posts", "Boolean", "Both posts covered"⟩),
  (220, ⟨220, "Player on near post", "Boolean", "Near post covered"⟩),
  (221, ⟨221, "Player on far post", "Boolean", "Far post covered"⟩),
  (222, ⟨222, "No players on posts", "Boolean", "Posts uncovered"⟩),
  (223, ⟨223, "In-swinger", "Boolean", "Corner in-swinger"⟩),
  (224, ⟨224, "Out-swinger", "Boolean", "Corner out-swinger"⟩),
  (225, ⟨225, "Straight", "Boolean", "Corner straight"⟩),
  (226, ⟨226, "Suspended", "Boolean", "Game suspended"⟩),
  (227, ⟨227, "Resume", "Boolean", "Game resumed"⟩),
  (228, ⟨228, "Own shot blocked", "Boolean", "Own shot blocked"⟩),
  (230, ⟨230, "GK X coordinate", "Coordinate", "GK position X"⟩),
  (231, ⟨231, "GK Y coordinate", "Coordinate", "GK position Y"⟩),
  (236, ⟨236, "Blocked pass", "Boolean", "Blocked pass"⟩),
  (237, ⟨237, "Low", "Boolean", "Low goal kick"⟩),
  (238, ⟨238, "Fair play", "Boolean", "Fair play kick"⟩),
  (240, ⟨240, "GK start", "Boolean", "GK passes from hands"⟩),
  (241, ⟨241, "Indirect", "Boolean", "Indirect free kick"⟩),
  (242, ⟨242, "Obstruction", "Boolean", "Obstruction foul"⟩),
  (243, ⟨243, "Unsporting behavior", "Boolean", "Unsporting"⟩),
  (244, ⟨244, "Not retreating", "Boolean", "Not retreating"⟩),
  (245, ⟨245, "Serious foul", "Boolean", "Serious foul"⟩),
  (246, ⟨246, "Drinks break", "Boolean", "Drinks break"⟩),
  (254, ⟨254, "Follows dribble", "Boolean", "Follows dribble"⟩),
  (255, ⟨255, "Open roof", "Boolean", "Roof open"⟩),
  (256, ⟨256, "Air humidity", "Percent", "Humidity %"⟩),
  (257, ⟨257, "Air pressure", "Value", "Air pressure"⟩),
  (258, ⟨258, "Sold out", "Boolean", "Stadium sold out"⟩),
  (259, ⟨259, "Celsius degrees", "Temperature", "Temperature C"⟩),
  (260, ⟨260, "Floodlight", "Boolean", "Floodlit"⟩),
  (261, ⟨261, "1 on 1 chip", "Boolean", "1v1 chip goal"⟩),
  (262, ⟨262, "Back heel", "Boolean", "Back heel goal"⟩),
  (263, ⟨263, "Direct corner", "Boolean", "Direct corner goal"⟩)]

/-- Chunk 5 of `OptaQualifierReference.QUALIFIERS`; the literal is
split because very long list literals elaborate slowly. -/
def QUALIFIERS_5 : List (Int × QualifierReference) := [
  (264, ⟨264, "Aerial foul", "Boolean", "Aerial foul"⟩),
  (265, ⟨265, "Attempted tackle", "Boolean", "Tackle attempt"⟩),
  (266, ⟨266, "Put through", "Boolean", "Put through"⟩),
  (267, ⟨267, "Right arm save", "Boolean", "Saved with right arm"⟩),
  (268, ⟨268, "Left arm save", "Boolean", "Saved with left arm"⟩),
  (269, ⟨269, "Both arms save", "Boolean", "Saved with both arms"⟩),
  (270, ⟨270, "Right leg save", "Boolean", "Saved with right leg"⟩),
  (271, ⟨271, "Left leg save", "Boolean", "Saved with left leg"⟩),
  (272, ⟨272, "Both legs save", "Boolean", "Saved with both legs"⟩),
  (273, ⟨273, "Hit right post", "Boolean", "Hit right post"⟩),
  (274, ⟨274, "Hit left post", "Boolean", "Hit left post"⟩),
  (275, ⟨275, "Hit bar", "Boolean", "Hit crossbar"⟩),
  (278, ⟨278, "Tap", "Boolean", "Free kick rolled"⟩),
  (279, ⟨279, "Kick off", "Boolean", "Starting pass"⟩),
  (280, ⟨280, "Fantasy assist type", "Event ID", "Assist event"⟩),
  (281, ⟨281, "Fantasy assisted by", "Text", "Player assist"⟩),
  (282, ⟨282, "Fantasy assist team", "Text", "Team assist"⟩),
  (283, ⟨283, "Coach ID", "Coach ID", "Team coach ID"⟩),
  (284, ⟨284, "Duel", "Boolean", "Blocked shot duel"⟩),
  (287, ⟨287, "Over-arm", "Boolean", "Over-arm throw"⟩),
  (289, ⟨289, "Denied goal-scoring opp", "Boolean", "Denied scoring"⟩),
  (290, ⟨290, "Coach types", "Types", "Coach roles"⟩)]

/-- `OptaQualifierReference.QUALIFIERS` (references.py:130-373), embedded as
an association list from code to `QualifierReference` record, in source
order. -/
def QUALIFIERS : List (Int × QualifierReference) :=
  QUALIFIERS_1 ++ QUALIFIERS_2 ++ QUALIFIERS_3 ++ QUALIFIERS_4 ++ QUALIFIERS_5

namespace OptaQualifierReference

/-- `OptaQualifierReference.get_qualifier_info` (references.py:375-377). -/
def get_qualifier_info (qualifier_id : Int) : Option QualifierReference :=
  (QUALIFIERS.find? (fun e => e.1 == qualifier_id)).map (fun e => e.2)

/-- `OptaQualifierReference.get_qualifier_name` (references.py:379-382). -/
def get_qualifier_name (qualifier_id : Int) : String :=
  match get_qualifier_info qualifier_id with
  | some q => q.name
  | none => "Unknown (ID: " ++ toString qualifier_id ++ ")"

/-- `OptaQualifierReference.get_qualifier_description`
(references.py:384-387). -/
def get_qualifier_description (qualifier_id : Int) : String :=
  match get_qualifier_info qualifier_id with
  | some q => q.description
  | none => "No description"

end OptaQualifierReference

/-! ## Raw feed structures (the nested JSON payload of one match)

Each structure mirrors the dictionary keys the Python code actually
accesses; an `Option` field is `none` when the key is absent. -/

/-- `matchInfo.competition` sub-dictionary. -/
structure Competition where
  id : Option String
  name : Option String
  competitionCode : Option String
deriving DecidableEq, Repr

/-- `matchInfo.tournamentCalendar` sub-dictionary. -/
structure TournamentCalendar where
  name : Option String
deriving DecidableEq, Repr

/-- One entry of `matchInfo.contestant`. -/
structure Contestant where
  position : Option String
  id : Option String
  name : Option String
deriving DecidableEq, Repr

/-- `matchInfo.venue` sub-dictionary. -/
structure Venue where
  shortName : Option String
deriving DecidableEq, Repr

/-- `matchInfo` block. -/
structure MatchInfo where
  id : Option String
  localDate : Option String
  localTime : Option String
  week : Option String
  competition : Option Competition
  tournamentCalendar : Option TournamentCalendar
  contestant : Option (List Contestant)
  venue : Option Venue
deriving DecidableEq, Repr

/-- `liveData.matchDetails.scores.total`. -/
structure ScoresTotal where
  home : Option String
  away : Option String
deriving DecidableEq, Repr

/-- `liveData.matchDetails.scores`. -/
structure Scores where
  total : Option ScoresTotal
deriving DecidableEq, Repr

/-- `liveData.matchDetails` block. -/
structure MatchDetails where
  winner : Option String
  matchStatus : Option String
  scores : Option Scores
deriving DecidableEq, Repr

/-- One `{qualifierId, value}` entry of an event's `qualifier` list. -/
structure RawQualifier where
  qualifierId : Option Int
  value : Option String
deriving DecidableEq, Repr

/-- One entry of `liveData.event`.  Pitch coordinates are carried as opaque
strings: the code copies them through unchanged. -/
structure RawEvent where
  id : Option Int
  typeId : Option Int
  periodId : Option Int
  timeMin : Option Int
  timeSec : Option Int
  contestantId : Option String
  playerId : Option String
  playerName : Option String
  outcome : Option Int
  x : Option String
  y : Option String
  timeStamp : Option String
  qualifier : Option (List RawQualifier)
deriving DecidableEq, Repr

/-- One `{type, value}` entry of a player's `stat` list. -/
structure RawStat where
  type : Option String
  value : Option String
deriving DecidableEq, Repr

/-- One entry of a team's `player` list. -/
structure RawPlayer where
  playerId : Option String
  matchName : Option String
  shirtNumber : Option String
  position : Option String
  stat : Option (List RawStat)
deriving DecidableEq, Repr

/-- One entry of `liveData.lineUp`. -/
structure TeamData where
  contestantId : Option String
  player : Option (List RawPlayer)
deriving DecidableEq, Repr

/-- `liveData` block. -/
structure LiveData where
  matchDetails : Option MatchDetails
  event : Option (List RawEvent)
  lineUp : Option (List TeamData)
deriving DecidableEq, Repr

/-- The whole raw payload of one match. -/
structure RawMatch where
  matchInfo : Option MatchInfo
  liveData : Option LiveData
deriving DecidableEq, Repr

/-! ## Metadata Extractor (`EventsDataParser.extract_match_metadata`,
parse_events.py:46-116) -/

/-- The flat metadata record.  A `none` field models a key the Python
dictionary never received (conditionally assigned keys); fields that are
assigned unconditionally once their block is present are plain values with
the `.get(..., "")` default applied. -/
structure Metadata where
  match_id : String
  local_date : String
  local_time : String
  match_week : String
  competition_id : Option String
  competition_name : Option String
  competition_code : Option String
  season : Option String
  home_team_id : Option String
  home_team_name : Option String
  away_team_id : Option String
  away_team_name : Option String
  venue : Option String
  winner : String
  match_status : String
  goals_home : Option String
  goals_away : Option String
deriving DecidableEq, Repr

/-- One iteration of the contestant loop (parse_events.py:75-86): a
contestant tagged `home` / `away` overwrites the corresponding team fields;
any other (or missing) position tag is skipped. -/
def applyContestant (m : Metadata) (c : Contestant) : Metadata :=
  match c.position with
  | some pos =>
    if pos = "home" then
      { m with home_team_id := some (c.id.getD "")
               home_team_name := some (c.name.getD "") }
    else if pos = "away" then
      { m with away_team_name := some (c.name.getD "")
               away_team_id := some (c.id.getD "") }
    else m
  | none => m

/-- `EventsDataParser.extract_match_metadata` (parse_events.py:46-116).
Raises (`.error`) when `matchInfo` is absent, when
`liveData`/`matchDetails` is absent, or when `raw_data` is `None`. -/
def extract_match_metadata (raw_data : Option RawMatch) :
    Except String Metadata :=
  match raw_data with
  | some rd =>
    match rd.matchInfo with
    | none => .error "KeyError: matchInfo"
    | some match_info =>
      let m0 : Metadata :=
        { match_id := match_info.id.getD ""
          local_date := match_info.localDate.getD ""
          local_time := match_info.localTime.getD ""
          match_week := match_info.week.getD ""
          competition_id := none, competition_name := none
          competition_code := none, season := none
          home_team_id := none, home_team_name := none
          away_team_id := none, away_team_name := none
          venue := none, winner := "", match_status := ""
          goals_home := none, goals_away := none }
      let m1 :=
        match match_info.competition with
        | some c =>
          { m0 with competition_id := some (c.id.getD "")
                    competition_name := some (c.name.getD "")
                    competition_code := some (c.competitionCode.getD "") }
        | none => m0
      let m2 :=
        match match_info.tournamentCalendar with
        | some tc =>
          match tc.name with
          | some n => { m1 with season := some n }
          | none => m1
        | none => m1
      let m3 := (match_info.contestant.getD []).foldl applyContestant m2
      let m4 :=
        match match_info.venue with
        | some v => { m3 with venue := some (v.shortName.getD "") }
        | none => m3
      match rd.liveData with
      | some ld =>
        match ld.matchDetails with
        | some match_details =>
          let m5 := { m4 with winner := match_details.winner.getD ""
                              match_status := match_details.matchStatus.getD "" }
          let m6 :=
            match match_details.scores with
            | some sc =>
              match sc.total with
              | some tot =>
                { m5 with goals_home := some (tot.home.getD "")
                          goals_away := some (tot.away.getD "") }
              | none => m5
            | none => m5
          .ok m6
        | none => .error "KeyError: liveData/matchDetails"
      | none => .error "KeyError: liveData/matchDetails"
  | none => .error "raw_data is None"

/-! ## Event/Qualifier Normalizer
(`EventsDataParser.parse_events_and_qualifiers`, parse_events.py:130-188) -/

/-- One row of the events DataFrame before the timestamp column is
converted to datetimes. -/
structure EventRow where
  id : Option Int
  match_id : String
  type_id : Option Int
  type_name : String
  period_id : Option Int
  minute : Option Int
  second : Option Int
  team_id : Option String
  player_id : Option String
  player_name : Option String
  outcome : Option Int
  x : Option String
  y : Option String
  timestamp : Option String
deriving DecidableEq, Repr

/-- One row of the qualifiers DataFrame. -/
structure QualifierRow where
  event_id : Option Int
  qualifier_id : Option Int
  qualifier_name : String
  qualifier_desc : String
  value : Option String
deriving DecidableEq, Repr

/-- `OptaEventTypeReference.get_type_name` as called with
`raw_event.get("typeId")`, which may be `None`: a `None` key misses the
dictionary, so the default string embeds the text `None`. -/
def get_type_name_of (typeId : Option Int) : String :=
  match typeId with
  | some t => OptaEventTypeReference.get_type_name t
  | none => "Unknown (ID: None)"

/-- `OptaQualifierReference.get_qualifier_name` as called with
`qualifier.get("qualifierId")`, which may be `None`. -/
def get_qualifier_name_of (qualifierId : Option Int) : String :=
  match qualifierId with
  | some q => OptaQualifierReference.get_qualifier_name q
  | none => "Unknown (ID: None)"

/-- `OptaQualifierReference.get_qualifier_description` as called with
`qualifier.get("qualifierId")`, which may be `None`. -/
def get_qualifier_description_of (qualifierId : Option Int) : String :=
  match qualifierId with
  | some q => OptaQualifierReference.get_qualifier_description q
  | none => "No description"

/-- The event record built for one raw event (parse_events.py:144-161). -/
def build_event_row (match_id : String) (raw_event : RawEvent) : EventRow :=
  { id := raw_event.id
    match_id := match_id
    type_id := raw_event.typeId
    type_name := get_type_name_of raw_event.typeId
    period_id := raw_event.periodId
    minute := raw_event.timeMin
    second := raw_event.timeSec
    team_id := raw_event.contestantId
    player_id := raw_event.playerId
    player_name := raw_event.playerName
    outcome := raw_event.outcome
    x := raw_event.x
    y := raw_event.y
    timestamp := raw_event.timeStamp }

/-- The qualifier records built for one raw event (parse_events.py:164-178):
one per entry of `raw_event.get("qualifier", [])`, tagged with the owning
event id. -/
def build_qualifier_rows (raw_event : RawEvent) : List QualifierRow :=
  (raw_event.qualifier.getD []).map (fun qualifier =>
    { event_id := raw_event.id
      qualifier_id := qualifier.qualifierId
      qualifier_name := get_qualifier_name_of qualifier.qualifierId
      qualifier_desc := get_qualifier_description_of qualifier.qualifierId
      value := qualifier.value })

/-- `EventsDataParser.parse_events_and_qualifiers` (parse_events.py:130-188).
`parse_ts` models `pd.to_datetime(..., format="ISO8601")` on a single
timestamp cell (a library call external to the repository): `none` means the
cell fails to parse, in which case the whole conversion — and hence the whole
match — fails.  On success the events table carries each row paired with its
parsed timestamp. -/
def parse_events_and_qualifiers (parse_ts : Option String → Option Nat)
    (match_id : String) (raw_data : RawMatch) :
    Except String (List (EventRow × Nat) × List QualifierRow) :=
  match raw_data.liveData.bind LiveData.event with
  | none => .error "Unable to locate events in JSON structure"
  | some events_raw =>
    let events_list := events_raw.map (build_event_row match_id)
    let qualifiers_list := events_raw.flatMap build_qualifier_rows
    match events_list.mapM
        (fun e => (parse_ts e.timestamp).map (fun ts => (e, ts))) with
    | some df_events => .ok (df_events, qualifiers_list)
    | none => .error "ISO8601 timestamp parse error"

/-! ## Player-Stat Extractor (`StatsParser`, parse_stats.py:35-129) -/

/-- `StatsParser.extract_match_id` (parse_stats.py:35-47):
`self.match_data["matchInfo"]["id"]` with the `KeyError` caught and turned
into `None`. -/
def extract_match_id (match_data : RawMatch) : Option String :=
  match_data.matchInfo.bind MatchInfo.id

/-- A cell of the wide player-stat table: identity columns keep their raw
string value, statistic columns are numeric after `pd.to_numeric`; in both
shapes `none` is an explicit null. -/
inductive Cell where
  | str : Option String → Cell
  | num : Option Int → Cell
deriving DecidableEq, Repr

/-- One row of the wide player-stat table: column name paired with its
cell, in column order. -/
abbrev StatRow := List (String × Cell)

/-- Insertion into a Python dictionary: overwrite in place when the key
exists, else append. -/
def dictInsert (d : List (String × Option String)) (k : String)
    (v : Option String) : List (String × Option String) :=
  if d.any (fun kv => kv.1 == k) then
    d.map (fun kv => if kv.1 == k then (k, v) else kv)
  else d ++ [(k, v)]

/-- Python dictionary lookup: `some v` when the key is present with value
`v` (itself possibly `None`), `none` when the key is absent. -/
def dictGet (d : List (String × Option String)) (k : String) :
    Option (Option String) :=
  (d.find? (fun kv => kv.1 == k)).map (fun kv => kv.2)

/-- The `player_info` dictionary built for one player
(parse_stats.py:74-94): the six identity keys, then one key per statistic
entry (later entries of the same type overwrite).  A statistic whose `type`
key is absent is skipped here: that case aborts the whole extraction before
the dictionary is ever read (see `extract_lineup_data`). -/
def player_info_dict (match_id : Option String) (team_id : Option String)
    (player : RawPlayer) : List (String × Option String) :=
  let base : List (String × Option String) :=
    [("matchId", match_id), ("team_id", team_id),
     ("playerId", player.playerId), ("matchName", player.matchName),
     ("shirtNumber", player.shirtNumber), ("position", player.position)]
  (player.stat.getD []).foldl
    (fun d stat =>
      match stat.type with
      | some t => dictInsert d t stat.value
      | none => d)
    base

/-- The identity columns placed first (parse_stats.py:102-109). -/
def basic_columns : List String :=
  ["matchId", "team_id", "playerId", "matchName", "shirtNumber", "position"]

/-- The `type` of every statistic entry of every player of every team, in
visit order (the contents of `all_stats_columns` before sorting). -/
def all_stat_types (lineup_array : List TeamData) : List (Option String) :=
  lineup_array.flatMap (fun team_data =>
    (team_data.player.getD []).flatMap (fun player =>
      (player.stat.getD []).map RawStat.type))

/-- `sorted(list(self.all_stats_columns))` (parse_stats.py:110): the
distinct statistic names in sorted order. -/
def sorted_stat_columns (lineup_array : List TeamData) : List String :=
  (((all_stat_types lineup_array).filterMap id).dedup).mergeSort
    (fun a b => a ≤ b)

/-- One row of the final DataFrame for one player (the row of
`df[column_order]` after the `pd.to_numeric` coercion of the statistic
columns): for each column in order, the player dictionary's value — absent
keys become nulls — with statistic columns coerced to numbers by `coerce`
(`pd.to_numeric(..., errors="coerce")`, a library call; `none` = NaN). -/
def build_stat_row (coerce : String → Option Int) (column_order : List String)
    (stat_columns : List String) (match_id : Option String)
    (team_id : Option String) (player : RawPlayer) : StatRow :=
  let d := player_info_dict match_id team_id player
  column_order.map (fun col =>
    if stat_columns.contains col then
      (col, Cell.num ((dictGet d col).bind (fun ov => ov.bind coerce)))
    else
      (col, Cell.str ((dictGet d col).getD none)))

/-- `StatsParser.extract_lineup_data` (parse_stats.py:49-129).  When
`liveData` / `lineUp` is absent the `KeyError` is caught and an empty
DataFrame is returned (`.ok []`).  When some statistic entry has no `type`
key, Python's `sorted` raises an uncaught `TypeError` comparing `None` with
`str` (`.error`).  Otherwise the wide table is produced: identity columns
first, then the distinct statistic names in sorted order, one row per
player in lineup order. -/
def extract_lineup_data (coerce : String → Option Int)
    (match_data : RawMatch) : Except String (List StatRow) :=
  let match_id := extract_match_id match_data
  match match_data.liveData.bind LiveData.lineUp with
  | none => .ok []
  | some lineup_array =>
    if (all_stat_types lineup_array).any Option.isNone then
      .error "TypeError: sorting None against str"
    else
      let stat_columns := sorted_stat_columns lineup_array
      let column_order := basic_columns ++ stat_columns
      .ok (lineup_array.flatMap (fun team_data =>
        (team_data.player.getD []).map
          (build_stat_row coerce column_order stat_columns match_id
            team_data.contestantId)))

/-! ## Concrete example payloads (used to exercise the definitions) -/

/-- Example raw event: a pass (type 1) carrying one qualifier (code 1). -/
def exEvent1 : RawEvent :=
  { id := some 1, typeId := some 1, periodId := some 1, timeMin := some 0,
    timeSec := some 3, contestantId := some "T1", playerId := some "P1",
    playerName := some "Alice", outcome := some 1, x := some "50.0",
    y := some "50.0", timeStamp := some "2024-01-01T00:00:00Z",
    qualifier := some [{ qualifierId := some 1, value := some "1" }] }

/-- Example raw event: a goal (type 16) with no qualifier list. -/
def exEvent2 : RawEvent :=
  { id := some 2, typeId := some 16, periodId := some 1, timeMin := some 9,
    timeSec := some 30, contestantId := some "T1", playerId := some "P2",
    playerName := some "Bob", outcome := some 1, x := some "95.0",
    y := some "45.0", timeStamp := some "2024-01-01T00:10:00Z",
    qualifier := none }

/-- Example payload with two events and no lineup block. -/
def exMatch : RawMatch :=
  { matchInfo := some
      { id := some "M1", localDate := some "2024-01-01",
        localTime := some "15:00", week := some "1", competition := none,
        tournamentCalendar := none, contestant := none, venue := none },
    liveData := some
      { matchDetails := some
          { winner := some "home", matchStatus := some "Played",
            scores := none },
        event := some [exEvent1, exEvent2], lineUp := none } }

/-- Example player carrying two statistics. -/
def exPlayer1 : RawPlayer :=
  { playerId := some "P1", matchName := some "Alice",
    shirtNumber := some "7", position := some "Midfielder",
    stat := some [{ type := some "goals", value := some "1" },
                  { type := some "passes", value := some "30" }] }

/-- Example player lacking the `goals` statistic. -/
def exPlayer2 : RawPlayer :=
  { playerId := some "P2", matchName := some "Bob",
    shirtNumber := some "1", position := some "Goalkeeper",
    stat := some [{ type := some "passes", value := some "12" }] }

/-- Example team block with the two example players. -/
def exTeam : TeamData :=
  { contestantId := some "T1", player := some [exPlayer1, exPlayer2] }

/-- Example payload with a lineup block of one team and two players. -/
def exStatsMatch : RawMatch :=
  { matchInfo := some
      { id := some "M1", localDate := none, localTime := none, week := none,
        competition := none, tournamentCalendar := none, contestant := none,
        venue := none },
    liveData := some
      { matchDetails := none, event := none, lineUp := some [exTeam] } }

/-! ## Theorems -/

/-- Helper: a row of `existing_df` whose match identifier occurs in the new
dataframe never survives the stats merge filter. -/
theorem stats_existing_filter_eq_nil (existing_df df : Table) (m : String)
    (hm : m ∈ df.map Row.matchId) :
    (if ((existing_df.map Row.matchId).dedup.filter
          (fun x => ((df.map Row.matchId).dedup).contains x)).isEmpty then
        existing_df
      else existing_df.filter
        (fun r => !((existing_df.map Row.matchId).dedup.filter
            (fun x => ((df.map Row.matchId).dedup).contains x)).contains
          r.matchId)).filter (fun r => r.matchId == m) = [] := by
  have hmem : m ∈ (df.map Row.matchId).dedup := List.mem_dedup.mpr hm
  have hcont : ((df.map Row.matchId).dedup).contains m = true :=
    List.elem_iff.mpr hmem
  split
  · next hempty =>
    rw [List.isEmpty_iff, List.filter_eq_nil_iff] at hempty
    rw [List.filter_eq_nil_iff]
    intro r hr hrm
    have hrm' : r.matchId = m := eq_of_beq hrm
    have h1 : r.matchId ∈ (existing_df.map Row.matchId).dedup :=
      List.mem_dedup.mpr (List.mem_map_of_mem Row.matchId hr)
    exact hempty r.matchId h1 (by rw [hrm']; exact hcont)
  · next hnonempty =>
    rw [List.filter_eq_nil_iff]
    intro r hr hrm
    have hrm' : r.matchId = m := eq_of_beq hrm
    have hr' := (List.mem_filter.mp hr).1
    have hkeep := (List.mem_filter.mp hr).2
    have h1 : r.matchId ∈ (existing_df.map Row.matchId).dedup :=
      List.mem_dedup.mpr (List.mem_map_of_mem Row.matchId hr')
    have h2 : r.matchId ∈ (existing_df.map Row.matchId).dedup.filter
        (fun x => ((df.map Row.matchId).dedup).contains x) :=
      List.mem_filter.mpr ⟨h1, by rw [hrm']; exact hcont⟩
    have h3 := List.elem_iff.mpr h2
    simp only [List.contains] at hkeep
    rw [h3] at hkeep
    simp at hkeep

/-- C1 counterexample: the metadata merge does NOT delete the rows already
stored for the incoming match identifier.  Merging a second table for match
`M1` into a store already holding rows for `M1` yields the concatenation of
both contributions, so the accumulated table for `M1` is not exactly the
second merge's rows. -/
theorem C1_counterexample :
    load_or_append_metadata (some [⟨"M1", "second"⟩])
        ⟨some [⟨"M1", "first"⟩], false⟩ =
      .ok ([⟨"M1", "first"⟩, ⟨"M1", "second"⟩],
        ⟨some [⟨"M1", "first"⟩, ⟨"M1", "second"⟩], false⟩) ∧
    ([⟨"M1", "first"⟩, ⟨"M1", "second"⟩] : Table).filter
        (fun r => r.matchId == "M1") ≠ [⟨"M1", "second"⟩] := by
  exact ⟨rfl, by decide⟩

/-- C1 amended: only the stats merge replaces at match granularity — after
`load_and_save_stats` with `append = true`, the merged table's rows for any
match identifier of the new table are exactly the new table's rows for it.
The metadata, events and qualifiers merges instead append the new table to
the stored one unchanged, so re-ingesting a match duplicates its rows
there. -/
theorem C1_amended :
    (∀ (fs : StatsFS) (df : Table) (m : String), df ≠ [] →
      m ∈ df.map Row.matchId →
      ((load_and_save_stats (some df) true fs).1).filter
          (fun r => r.matchId == m) =
        df.filter (fun r => r.matchId == m)) ∧
    (∀ (t df : Table),
      load_or_append_metadata (some df) ⟨some t, false⟩ =
        .ok (t ++ df, ⟨some (t ++ df), false⟩) ∧
      load_or_append_events (some df) ⟨some t, false⟩ =
        .ok (t ++ df, ⟨some (t ++ df), false⟩) ∧
      load_or_append_qualifiers (some df) ⟨some t, false⟩ =
        .ok (t ++ df, ⟨some (t ++ df), false⟩)) := by
  constructor
  · intro fs df m hne hm
    have hne' : df.isEmpty = false := by
      cases df with
      | nil => exact absurd rfl hne
      | cons a l => rfl
    obtain ⟨file, readFails, writeFails⟩ := fs
    have key : ∀ existing_df : Table,
        ((if existing_df.isEmpty then df
          else
            (if ((existing_df.map Row.matchId).dedup.filter
                  (fun x => ((df.map Row.matchId).dedup).contains x)).isEmpty
              then existing_df
              else existing_df.filter
                (fun r => !((existing_df.map Row.matchId).dedup.filter
                    (fun x =>
                      ((df.map Row.matchId).dedup).contains x)).contains
                  r.matchId)) ++ df).filter (fun r => r.matchId == m)) =
        df.filter (fun r => r.matchId == m) := by
      intro existing_df
      by_cases hex : existing_df.isEmpty
      · simp [hex]
      · rw [if_neg hex, List.filter_append,
          stats_existing_filter_eq_nil existing_df df m hm, List.nil_append]
    cases file with
    | none => cases writeFails <;>
        simpa [load_and_save_stats, hne'] using key []
    | some t =>
      cases readFails with
      | true => cases writeFails <;>
          simpa [load_and_save_stats, hne'] using key []
      | false => cases writeFails <;>
          simpa [load_and_save_stats, hne'] using key t
  · intro t df
    exact ⟨rfl, rfl, rfl⟩

/-- C1 amended, witness: a concrete second merge.  The stats store holds
rows for `M1` and `M2`; merging a new stats table for `M1` leaves exactly
the new `M1` rows; the metadata merge of the same shape keeps both
contributions. -/
theorem C1_amended_witness :
    (([⟨"M1", "new"⟩] : Table) ≠ [] ∧
      "M1" ∈ ([⟨"M1", "new"⟩] : Table).map Row.matchId) ∧
    ((load_and_save_stats (some [⟨"M1", "new"⟩]) true
        ⟨some [⟨"M1", "old"⟩, ⟨"M2", "keep"⟩], false, false⟩).1).filter
        (fun r => r.matchId == "M1") =
      ([⟨"M1", "new"⟩] : Table).filter (fun r => r.matchId == "M1") ∧
    load_or_append_metadata (some [⟨"M1", "new"⟩])
        ⟨some [⟨"M1", "old"⟩], false⟩ =
      .ok ([⟨"M1", "old"⟩, ⟨"M1", "new"⟩],
        ⟨some [⟨"M1", "old"⟩, ⟨"M1", "new"⟩], false⟩) := by
  refine ⟨⟨by decide, by decide⟩, ?_, ?_⟩
  · exact C1_amended.1 ⟨some [⟨"M1", "old"⟩, ⟨"M2", "keep"⟩], false, false⟩
      [⟨"M1", "new"⟩] "M1" (by decide) (by decide)
  · exact (C1_amended.2 [⟨"M1", "old"⟩] [⟨"M1", "new"⟩]).1

/-- C3 counterexample: the stats load (`load_and_save_stats` with no new
data) on a store whose parquet file does not exist returns an empty table
and leaves the state unchanged; its return type is total, so no "not found"
failure is surfaced, contradicting the claim for the stats table type. -/
theorem C3_counterexample :
    load_and_save_stats none false ⟨none, false, false⟩ =
      (([] : Table), ⟨none, false, false⟩) := rfl

/-- C3 amended: for the metadata, events and qualifiers tables, loading
with no new data raises `FileNotFoundError` when the parquet file does not
exist and returns the stored table when it does; the stats load instead
returns an empty table (and no failure) when its file does not exist. -/
theorem C3_amended :
    (∀ fs : FS, fs.file = none →
      load_or_append_metadata none fs =
        .error "FileNotFoundError: Parquet file not found" ∧
      load_or_append_events none fs =
        .error "FileNotFoundError: Parquet file not found" ∧
      load_or_append_qualifiers none fs =
        .error "FileNotFoundError: Parquet file not found") ∧
    (∀ (fs : FS) (t : Table), fs.file = some t →
      load_or_append_metadata none fs = .ok (t, fs) ∧
      load_or_append_events none fs = .ok (t, fs) ∧
      load_or_append_qualifiers none fs = .ok (t, fs)) ∧
    (∀ fs : StatsFS, fs.file = none →
      load_and_save_stats none false fs = (([] : Table), fs)) := by
  refine ⟨?_, ?_, ?_⟩
  · intro fs h
    exact ⟨by simp [load_or_append_metadata, h],
      by simp [load_or_append_events, h],
      by simp [load_or_append_qualifiers, h]⟩
  · intro fs t h
    exact ⟨by simp [load_or_append_metadata, h],
      by simp [load_or_append_events, h],
      by simp [load_or_append_qualifiers, h]⟩
  · intro fs h
    simp [load_and_save_stats, h]

/-- C3 amended, witness at concrete stores. -/
theorem C3_amended_witness :
    load_or_append_metadata none ⟨none, false⟩ =
      .error "FileNotFoundError: Parquet file not found" ∧
    load_or_append_events none ⟨some [⟨"M1", "x"⟩], false⟩ =
      .ok ([⟨"M1", "x"⟩], ⟨some [⟨"M1", "x"⟩], false⟩) ∧
    load_and_save_stats none false ⟨none, false, false⟩ =
      (([] : Table), ⟨none, false, false⟩) :=
  ⟨(C3_amended.1 ⟨none, false⟩ rfl).1,
    (C3_amended.2.1 ⟨some [⟨"M1", "x"⟩], false⟩ [⟨"M1", "x"⟩] rfl).2.1,
    C3_amended.2.2 ⟨none, false, false⟩ rfl⟩

/-- C4 counterexample: a failing stats write is swallowed.  Merging a new
table while `to_parquet` raises returns the in-memory merged table, yet the
durable file is unchanged, so a subsequent load retrieves an empty table —
the returned table does not reflect the durably stored state and no error
is surfaced. -/
theorem C4_counterexample :
    load_and_save_stats (some [⟨"M1", "new"⟩]) true ⟨none, false, true⟩ =
      ([⟨"M1", "new"⟩], ⟨none, false, true⟩) ∧
    (load_and_save_stats none false ⟨none, false, true⟩).1 = [] ∧
    ([⟨"M1", "new"⟩] : Table) ≠ [] := by
  exact ⟨rfl, rfl, by decide⟩

/-- C4 amended: for the metadata, events and qualifiers merges a write
failure is surfaced as an explicit error, and a successfully returned table
is exactly the durably stored one; the stats merge instead swallows a write
failure, returning the merged table while leaving the durable file in its
previous state. -/
theorem C4_amended :
    (∀ (df : Table) (fs : FS), fs.writeFails = true →
      load_or_append_metadata (some df) fs = .error "to_parquet failed" ∧
      load_or_append_events (some df) fs = .error "to_parquet failed" ∧
      load_or_append_qualifiers (some df) fs = .error "to_parquet failed") ∧
    (∀ (df t : Table) (fs fs2 : FS),
      load_or_append_metadata (some df) fs = .ok (t, fs2) →
      fs2.file = some t) ∧
    (∀ (df t : Table) (fs fs2 : FS),
      load_or_append_events (some df) fs = .ok (t, fs2) →
      fs2.file = some t) ∧
    (∀ (df t : Table) (fs fs2 : FS),
      load_or_append_qualifiers (some df) fs = .ok (t, fs2) →
      fs2.file = some t) ∧
    (∀ (df : Table) (fs : StatsFS), fs.writeFails = true → df ≠ [] →
      (load_and_save_stats (some df) true fs).2 = fs) := by
  refine ⟨?_, ?_, ?_, ?_, ?_⟩
  · intro df fs h
    exact ⟨by simp [load_or_append_metadata, h],
      by simp [load_or_append_events, h],
      by simp [load_or_append_qualifiers, h]⟩
  · intro df t fs fs2 h
    rw [load_or_append_metadata] at h
    by_cases hw : fs.writeFails = true
    · simp [hw] at h
    · simp only [Bool.not_eq_true] at hw
      simp only [hw, Bool.false_eq_true, if_false, Except.ok.injEq,
        Prod.mk.injEq] at h
      obtain ⟨h1, h2⟩ := h
      rw [← h2, ← h1]
  · intro df t fs fs2 h
    rw [load_or_append_events] at h
    by_cases hw : fs.writeFails = true
    · simp [hw] at h
    · simp only [Bool.not_eq_true] at hw
      simp only [hw, Bool.false_eq_true, if_false, Except.ok.injEq,
        Prod.mk.injEq] at h
      obtain ⟨h1, h2⟩ := h
      rw [← h2, ← h1]
  · intro df t fs fs2 h
    rw [load_or_append_qualifiers] at h
    by_cases hw : fs.writeFails = true
    · simp [hw] at h
    · simp only [Bool.not_eq_true] at hw
      simp only [hw, Bool.false_eq_true, if_false, Except.ok.injEq,
        Prod.mk.injEq] at h
      obtain ⟨h1, h2⟩ := h
      rw [← h2, ← h1]
  · intro df fs hw hne
    have hne' : df.isEmpty = false := by
      cases df with
      | nil => exact absurd rfl hne
      | cons a l => rfl
    simp [load_and_save_stats, hne', hw]

/-- C4 amended, witness at concrete stores. -/
theorem C4_amended_witness :
    load_or_append_metadata (some [⟨"M1", "x"⟩]) ⟨none, true⟩ =
      .error "to_parquet failed" ∧
    ((load_or_append_events (some [⟨"M1", "x"⟩]) ⟨none, false⟩ =
        .ok ([⟨"M1", "x"⟩], ⟨some [⟨"M1", "x"⟩], false⟩)) →
      (⟨some [⟨"M1", "x"⟩], false⟩ : FS).file = some [⟨"M1", "x"⟩]) ∧
    (([⟨"M1", "x"⟩] : Table) ≠ [] ∧
      (load_and_save_stats (some [⟨"M1", "x"⟩]) true
        ⟨none, false, true⟩).2 = ⟨none, false, true⟩) := by
  refine ⟨(C4_amended.1 [⟨"M1", "x"⟩] ⟨none, true⟩ rfl).1, ?_, by decide,
    C4_amended.2.2.2.2 [⟨"M1", "x"⟩] ⟨none, false, true⟩ rfl (by decide)⟩
  exact C4_amended.2.2.1 [⟨"M1", "x"⟩] [⟨"M1", "x"⟩] ⟨none, false⟩
    ⟨some [⟨"M1", "x"⟩], false⟩

/-- C10: with `append` left at its Python default `False`, the stats
load-and-save operation ignores the new table entirely: the file state is
never touched, and when the stored table is readable it is returned
unchanged, whatever new table was passed in.  Persisting new rows requires
passing `append = true`. -/
theorem C10_append_false_is_pure_load :
    (∀ (new_df : Option Table) (fs : StatsFS),
      (load_and_save_stats new_df false fs).2 = fs) ∧
    (∀ (new_df : Option Table) (fs : StatsFS) (t : Table),
      fs.file = some t → fs.readFails = false →
      load_and_save_stats new_df false fs = (t, fs)) := by
  constructor
  · intro new_df fs
    simp [load_and_save_stats]
  · intro new_df fs t hfile hread
    simp [load_and_save_stats, hfile, hread]

/-- C10 witness: a nonempty new stats table passed with `append = false` is
silently dropped and the stored table comes back with the file state
unchanged. -/
theorem C10_witness :
    load_and_save_stats (some [⟨"M2", "dropped"⟩]) false
        ⟨some [⟨"M1", "stored"⟩], false, false⟩ =
      ([⟨"M1", "stored"⟩], ⟨some [⟨"M1", "stored"⟩], false, false⟩) :=
  C10_append_false_is_pure_load.2 (some [⟨"M2", "dropped"⟩])
    ⟨some [⟨"M1", "stored"⟩], false, false⟩ [⟨"M1", "stored"⟩] rfl rfl

/-- C2 counterexample: code 999 is in neither reference table, yet the two
description lookups return the fixed string `No description`, which does
not embed the code — two distinct unknown codes receive the identical
description — contradicting the claim for the description lookups. -/
theorem C2_counterexample :
    eventTypeLookup 999 = none ∧
    OptaQualifierReference.get_qualifier_info 999 = none ∧
    OptaEventTypeReference.get_type_description 999 = "No description" ∧
    OptaQualifierReference.get_qualifier_description 999 = "No description" ∧
    OptaEventTypeReference.get_type_description 999 =
      OptaEventTypeReference.get_type_description 1000 ∧
    OptaQualifierReference.get_qualifier_description 999 =
      OptaQualifierReference.get_qualifier_description 1000 :=
  ⟨rfl, rfl, rfl, rfl, rfl, rfl⟩

/-- C2 amended: for any code in neither reference table, the two name
lookups return the deterministic placeholder embedding the code, while the
two description lookups return the deterministic placeholder
`No description` that does not embed it; all four are total functions, so
none can raise. -/
theorem C2_amended (code : Int)
    (h1 : eventTypeLookup code = none)
    (h2 : OptaQualifierReference.get_qualifier_info code = none) :
    OptaEventTypeReference.get_type_name code =
      "Unknown (ID: " ++ toString code ++ ")" ∧
    OptaEventTypeReference.get_type_description code = "No description" ∧
    OptaQualifierReference.get_qualifier_name code =
      "Unknown (ID: " ++ toString code ++ ")" ∧
    OptaQualifierReference.get_qualifier_description code =
      "No description" := by
  refine ⟨?_, ?_, ?_, ?_⟩
  · rw [OptaEventTypeReference.get_type_name, h1]
  · rw [OptaEventTypeReference.get_type_description, h1]
  · rw [OptaQualifierReference.get_qualifier_name, h2]
  · rw [OptaQualifierReference.get_qualifier_description, h2]

/-- C2 amended, witness at the unknown code 999. -/
theorem C2_amended_witness :
    OptaEventTypeReference.get_type_name 999 =
      "Unknown (ID: " ++ toString (999 : Int) ++ ")" ∧
    OptaEventTypeReference.get_type_description 999 = "No description" ∧
    OptaQualifierReference.get_qualifier_name 999 =
      "Unknown (ID: " ++ toString (999 : Int) ++ ")" ∧
    OptaQualifierReference.get_qualifier_description 999 =
      "No description" :=
  C2_amended 999 rfl rfl

/-- C5: metadata extraction fails with a `KeyError` — producing no metadata
record — when the match-info block is absent, and likewise when the
live-data match-details block is absent. -/
theorem C5_missing_sections_raise (rd : RawMatch) :
    (rd.matchInfo = none →
      extract_match_metadata (some rd) = .error "KeyError: matchInfo") ∧
    (∀ mi : MatchInfo, rd.matchInfo = some mi →
      rd.liveData.bind LiveData.matchDetails = none →
      extract_match_metadata (some rd) =
        .error "KeyError: liveData/matchDetails") := by
  constructor
  · intro h
    rw [extract_match_metadata, h]
  · intro mi hmi hmd
    cases hld : rd.liveData with
    | none => rw [extract_match_metadata, hmi, hld]
    | some ld =>
      rw [hld] at hmd
      have hmd2 : ld.matchDetails = none := hmd
      simp [extract_match_metadata, hmi, hld, hmd2]

/-- C5 witness: a payload with no match-info block errors out, and a payload
whose live-data block lacks match-details errors out. -/
theorem C5_witness :
    extract_match_metadata (some ⟨none, none⟩) = .error "KeyError: matchInfo" ∧
    extract_match_metadata (some
        ⟨some ⟨some "M1", none, none, none, none, none, none, none⟩,
         some ⟨none, none, none⟩⟩) =
      .error "KeyError: liveData/matchDetails" :=
  ⟨(C5_missing_sections_raise ⟨none, none⟩).1 rfl,
    (C5_missing_sections_raise _).2
      ⟨some "M1", none, none, none, none, none, none, none⟩ rfl rfl⟩

/-- Helper: a successful element-wise pairing `mapM` returns the input list
in its first components. -/
theorem mapM_pair_fst {α β : Type} (g : α → Option β) :
    ∀ (l : List α) (res : List (α × β)),
      l.mapM (fun e => (g e).map (fun ts => (e, ts))) = some res →
      res.map Prod.fst = l := by
  intro l
  induction l with
  | nil =>
    intro res h
    simp only [List.mapM_nil, pure, Option.some.injEq] at h
    simp [← h]
  | cons a l ih =>
    intro res h
    rw [List.mapM_cons] at h
    cases hga : g a with
    | none => rw [hga] at h; simp at h
    | some b =>
      rw [hga] at h
      cases hrest : l.mapM (fun e => (g e).map (fun ts => (e, ts))) with
      | none => rw [hrest] at h; simp at h
      | some xs =>
        rw [hrest] at h
        simp at h
        subst h
        simp [ih xs hrest]

/-- Helper: in a duplicate-free list, filtering for a member yields exactly
one element. -/
theorem filter_eq_mem_length_one {α : Type} [DecidableEq α] :
    ∀ (l : List α) (a : α), l.Nodup → a ∈ l →
      (l.filter (fun x => x = a)).length = 1 := by
  intro l
  induction l with
  | nil => intro a _ ha; cases ha
  | cons b l ih =>
    intro a hd ha
    rw [List.nodup_cons] at hd
    rcases List.mem_cons.mp ha with rfl | ha2
    · rw [List.filter_cons_of_pos (by simp)]
      have hnil : l.filter (fun x => x = a) = [] := by
        rw [List.filter_eq_nil_iff]
        intro x hx hxa
        have : x = a := by simpa using hxa
        exact hd.1 (this ▸ hx)
      rw [hnil]
      rfl
    · have hba : ¬ b = a := by
        rintro rfl
        exact hd.1 ha2
      rw [List.filter_cons_of_neg (by simpa using hba)]
      exact ih a hd.2 ha2

/-- C7: on success, the qualifier table has one row per nested qualifier
entry — its length is the sum over the raw events of their qualifier-list
lengths (zero when the list is absent). -/
theorem C7_qualifier_row_count (parse_ts : Option String → Option Nat)
    (match_id : String) (raw : RawMatch) (events_raw : List RawEvent)
    (evs : List (EventRow × Nat)) (qs : List QualifierRow)
    (hev : raw.liveData.bind LiveData.event = some events_raw)
    (hok : parse_events_and_qualifiers parse_ts match_id raw =
      .ok (evs, qs)) :
    qs.length =
      (events_raw.map (fun e => (e.qualifier.getD []).length)).sum := by
  simp only [parse_events_and_qualifiers, hev] at hok
  split at hok
  · next df heq =>
    simp only [Except.ok.injEq, Prod.mk.injEq] at hok
    obtain ⟨-, hqs⟩ := hok
    rw [← hqs, List.flatMap_def, List.length_flatten, List.map_map]
    congr 1
    apply List.map_congr_left
    intro e _
    simp [build_qualifier_rows]
  · exact absurd hok (by simp)

/-- C7 witness: the two-event example payload (one qualifier on the first
event, no qualifier list on the second) yields exactly one qualifier row. -/
theorem C7_witness :
    ([({ event_id := some 1, qualifier_id := some 1,
          qualifier_name := "Long ball",
          qualifier_desc := "Pass over 35 yards",
          value := some "1" } : QualifierRow)].length =
      ([exEvent1, exEvent2].map
        (fun e => (e.qualifier.getD []).length)).sum) :=
  C7_qualifier_row_count (fun _ => some 0) "M1" exMatch [exEvent1, exEvent2]
    [(build_event_row "M1" exEvent1, 0), (build_event_row "M1" exEvent2, 0)]
    [{ event_id := some 1, qualifier_id := some 1,
       qualifier_name := "Long ball",
       qualifier_desc := "Pass over 35 yards", value := some "1" }]
    rfl rfl

/-- C6: when the raw events carry pairwise-distinct identifiers, every
qualifier row produced in the same pass references exactly one event row of
the events table produced from the same payload. -/
theorem C6_qualifier_event_ref (parse_ts : Option String → Option Nat)
    (match_id : String) (raw : RawMatch) (events_raw : List RawEvent)
    (evs : List (EventRow × Nat)) (qs : List QualifierRow)
    (hev : raw.liveData.bind LiveData.event = some events_raw)
    (hnodup : (events_raw.map RawEvent.id).Nodup)
    (hok : parse_events_and_qualifiers parse_ts match_id raw =
      .ok (evs, qs)) :
    ∀ q ∈ qs, (evs.filter (fun p => p.1.id = q.event_id)).length = 1 := by
  intro q hq
  simp only [parse_events_and_qualifiers, hev] at hok
  split at hok
  · next df heq =>
    simp only [Except.ok.injEq, Prod.mk.injEq] at hok
    obtain ⟨hdf, hqs⟩ := hok
    rw [hdf] at heq
    have hfst : evs.map Prod.fst = events_raw.map (build_event_row match_id) :=
      mapM_pair_fst _ _ _ heq
    rw [← hqs] at hq
    obtain ⟨e, he, hqe⟩ := List.mem_flatMap.mp hq
    have hid : q.event_id = e.id := by
      obtain ⟨qr, -, hqr⟩ := List.mem_map.mp hqe
      rw [← hqr]
    have step1 : (evs.filter (fun p => p.1.id = q.event_id)).length =
        ((evs.map Prod.fst).filter (fun r => r.id = q.event_id)).length := by
      rw [← List.countP_eq_length_filter, ← List.countP_eq_length_filter,
        List.countP_map]
      rfl
    have step2 :
        ((events_raw.map (build_event_row match_id)).filter
            (fun r => r.id = q.event_id)).length =
        ((events_raw.map RawEvent.id).filter
            (fun i => i = q.event_id)).length := by
      rw [← List.countP_eq_length_filter, ← List.countP_eq_length_filter,
        List.countP_map, List.countP_map]
      rfl
    rw [step1, hfst, step2, hid]
    exact filter_eq_mem_length_one _ _ hnodup (List.mem_map_of_mem RawEvent.id he)
  · exact absurd hok (by simp)

/-- C6 witness: in the two-event example the single qualifier row references
exactly one of the two event rows. -/
theorem C6_witness :
    (([(build_event_row "M1" exEvent1, 0),
        (build_event_row "M1" exEvent2, 0)].filter
      (fun p => p.1.id =
        ({ event_id := some 1, qualifier_id := some 1,
           qualifier_name := "Long ball",
           qualifier_desc := "Pass over 35 yards",
           value := some "1" } : QualifierRow).event_id)).length = 1) :=
  C6_qualifier_event_ref (fun _ => some 0) "M1" exMatch [exEvent1, exEvent2]
    [(build_event_row "M1" exEvent1, 0), (build_event_row "M1" exEvent2, 0)]
    [{ event_id := some 1, qualifier_id := some 1,
       qualifier_name := "Long ball",
       qualifier_desc := "Pass over 35 yards", value := some "1" }]
    rfl (by decide) rfl
    { event_id := some 1, qualifier_id := some 1,
      qualifier_name := "Long ball",
      qualifier_desc := "Pass over 35 yards", value := some "1" }
    (by decide)

/-- C9: when the live-data section has no lineup block, player-stat
extraction does not raise — it returns an empty stats table. -/
theorem C9_missing_lineup_empty (coerce : String → Option Int)
    (match_data : RawMatch)
    (h : match_data.liveData.bind LiveData.lineUp = none) :
    extract_lineup_data coerce match_data = .ok [] := by
  rw [extract_lineup_data, h]

/-- C9 witness: the example payload without a lineup block yields the empty
table. -/
theorem C9_witness :
    extract_lineup_data String.toInt? exMatch = .ok [] :=
  C9_missing_lineup_empty String.toInt? exMatch rfl

/-- Helper: overwriting key `k` in the dictionary leaves lookups of a
different key `k2` unchanged (map branch of `dictInsert`). -/
theorem dictGet_map_overwrite_ne (k k2 : String) (v : Option String)
    (hne : k2 ≠ k) :
    ∀ d : List (String × Option String),
      dictGet (d.map (fun kv => if kv.1 == k then (k, v) else kv)) k2 =
        dictGet d k2 := by
  intro d
  induction d with
  | nil => rfl
  | cons kv d ih =>
    by_cases h1 : kv.1 = k
    · have hbeq : (kv.1 == k) = true := beq_iff_eq.mpr h1
      have hkk2 : (k == k2) = false := beq_eq_false_iff_ne.mpr fun h => hne h.symm
      have hkv : (kv.1 == k2) = false :=
        beq_eq_false_iff_ne.mpr (by rw [h1]; exact fun h => hne h.symm)
      simp only [List.map_cons, hbeq, if_true, dictGet, List.find?_cons,
        hkk2, hkv] at *
      exact ih
    · have hbeq : (kv.1 == k) = false := beq_eq_false_iff_ne.mpr h1
      by_cases h2 : kv.1 = k2
      · have hkv : (kv.1 == k2) = true := beq_iff_eq.mpr h2
        simp only [List.map_cons, hbeq, Bool.false_eq_true, if_false,
          dictGet, List.find?_cons, hkv]
      · have hkv : (kv.1 == k2) = false := beq_eq_false_iff_ne.mpr h2
        simp only [List.map_cons, hbeq, Bool.false_eq_true, if_false,
          dictGet, List.find?_cons, hkv] at *
        exact ih

/-- Helper: inserting key `k` leaves lookups of a different key `k2`
unchanged. -/
theorem dictGet_insert_ne (k k2 : String) (v : Option String)
    (hne : k2 ≠ k) (d : List (String × Option String)) :
    dictGet (dictInsert d k v) k2 = dictGet d k2 := by
  rw [dictInsert]
  split
  · exact dictGet_map_overwrite_ne k k2 v hne d
  · rw [dictGet, dictGet, List.find?_append]
    have : ((([(k, v)] : List (String × Option String))).find?
        (fun kv => kv.1 == k2)) = none := by
      simp [List.find?, beq_eq_false_iff_ne.mpr fun h => hne h.symm]
    rw [this]
    cases (d.find? fun kv => kv.1 == k2) <;> rfl

/-- Helper: folding the statistic entries of a player over a dictionary
that does not contain `col` never makes `col` appear, provided no entry is
typed `col`. -/
theorem dictGet_foldl_stats_none (col : String) :
    ∀ (stats : List RawStat),
      (∀ st ∈ stats, st.type ≠ some col) →
      ∀ d : List (String × Option String), dictGet d col = none →
        dictGet (stats.foldl (fun d stat =>
          match stat.type with
          | some t => dictInsert d t stat.value
          | none => d) d) col = none := by
  intro stats
  induction stats with
  | nil => intro _ d h; exact h
  | cons st stats ih =>
    intro hcol d h
    rw [List.foldl_cons]
    refine ih (fun s hs => hcol s (List.mem_cons_of_mem _ hs)) _ ?_
    cases hty : st.type with
    | none => exact h
    | some t =>
      have hne : col ≠ t := by
        intro hc
        exact hcol st (List.mem_cons_self st stats) (by rw [hty, hc])
      rw [dictGet_insert_ne t col st.value hne d]
      exact h

/-- Helper: the player dictionary has no entry for a column that is neither
an identity column nor one of the player's statistic types. -/
theorem player_info_dict_get_none (match_id team_id : Option String)
    (player : RawPlayer) (col : String) (hcol : col ∉ basic_columns)
    (hstat : ∀ st ∈ player.stat.getD [], st.type ≠ some col) :
    dictGet (player_info_dict match_id team_id player) col = none := by
  rw [player_info_dict]
  refine dictGet_foldl_stats_none col _ hstat _ ?_
  simp only [basic_columns, List.mem_cons, List.not_mem_nil, or_false,
    not_or] at hcol
  obtain ⟨h1, h2, h3, h4, h5, h6⟩ := hcol
  have b1 : ("matchId" == col) = false := beq_eq_false_iff_ne.mpr (Ne.symm h1)
  have b2 : ("team_id" == col) = false := beq_eq_false_iff_ne.mpr (Ne.symm h2)
  have b3 : ("playerId" == col) = false := beq_eq_false_iff_ne.mpr (Ne.symm h3)
  have b4 : ("matchName" == col) = false :=
    beq_eq_false_iff_ne.mpr (Ne.symm h4)
  have b5 : ("shirtNumber" == col) = false :=
    beq_eq_false_iff_ne.mpr (Ne.symm h5)
  have b6 : ("position" == col) = false := beq_eq_false_iff_ne.mpr (Ne.symm h6)
  simp [dictGet, List.find?, b1, b2, b3, b4, b5, b6]

/-- Helper: a built player row lists exactly the requested columns, in
order. -/
theorem build_stat_row_columns (coerce : String → Option Int)
    (column_order stat_columns : List String)
    (match_id team_id : Option String) (player : RawPlayer) :
    (build_stat_row coerce column_order stat_columns match_id team_id
        player).map Prod.fst = column_order := by
  rw [build_stat_row, List.map_map]
  conv_rhs => rw [← List.map_id column_order]
  apply List.map_congr_left
  intro c _
  by_cases h : c ∈ stat_columns <;> simp [h]

/-- Helper: a statistic column the player dictionary lacks gets an explicit
null cell in the built row. -/
theorem build_stat_row_null_cell (coerce : String → Option Int)
    (column_order stat_columns : List String)
    (match_id team_id : Option String) (player : RawPlayer) (col : String)
    (hmem : col ∈ column_order) (hstat : col ∈ stat_columns)
    (hget : dictGet (player_info_dict match_id team_id player) col = none) :
    (col, Cell.num none) ∈
      build_stat_row coerce column_order stat_columns match_id team_id
        player := by
  rw [build_stat_row]
  refine List.mem_map.mpr ⟨col, hmem, ?_⟩
  simp [hstat, hget]

/-- Helper: the discovered statistic columns are sorted. -/
theorem sorted_stat_columns_sorted (lineup_array : List TeamData) :
    (sorted_stat_columns lineup_array).Sorted (· ≤ ·) := by
  rw [sorted_stat_columns]
  have h := @List.sorted_mergeSort String (fun a b : String => a ≤ b)
    (fun a b c h1 h2 => decide_eq_true
      (le_trans (of_decide_eq_true h1) (of_decide_eq_true h2)))
    (fun a b => by
      rcases le_total a b with h | h <;> simp [h])
    (((all_stat_types lineup_array).filterMap id).dedup)
  exact h.imp (fun hab => of_decide_eq_true hab)

/-- Helper: membership in the discovered statistic columns. -/
theorem mem_sorted_stat_columns (lineup_array : List TeamData) (s : String) :
    s ∈ sorted_stat_columns lineup_array ↔
      some s ∈ all_stat_types lineup_array := by
  rw [sorted_stat_columns]
  rw [List.mem_mergeSort, List.mem_dedup, List.mem_filterMap]
  constructor
  · rintro ⟨a, ha, rfl⟩
    exact ha
  · intro h
    exact ⟨some s, h, rfl⟩

/-- Helper: the discovered statistic columns are duplicate-free. -/
theorem sorted_stat_columns_nodup (lineup_array : List TeamData) :
    (sorted_stat_columns lineup_array).Nodup := by
  rw [sorted_stat_columns]
  exact (List.mergeSort_perm _ _).nodup_iff.mpr (List.nodup_dedup _)

/-- C8: when the lineup block is present, every statistic entry is typed,
and the discovered statistic names avoid the identity column names, every
row of the produced PlayerStat table carries exactly the identity columns
followed by the union of the discovered statistic names in sorted order
(duplicate-free), and a player lacking one of those statistics gets an
explicit null cell in that column rather than a missing column. -/
theorem C8_uniform_wide_rows (coerce : String → Option Int) (md : RawMatch)
    (lineup_array : List TeamData) (rows : List StatRow)
    (hlu : md.liveData.bind LiveData.lineUp = some lineup_array)
    (htyped : ∀ t ∈ all_stat_types lineup_array, t ≠ none)
    (hdisj : ∀ s ∈ sorted_stat_columns lineup_array, s ∉ basic_columns)
    (hok : extract_lineup_data coerce md = .ok rows) :
    (∀ row ∈ rows,
      row.map Prod.fst =
        basic_columns ++ sorted_stat_columns lineup_array) ∧
    (basic_columns ++ sorted_stat_columns lineup_array).Nodup ∧
    (sorted_stat_columns lineup_array).Sorted (· ≤ ·) ∧
    (∀ s, s ∈ sorted_stat_columns lineup_array ↔
      some s ∈ all_stat_types lineup_array) ∧
    (∀ team_data ∈ lineup_array, ∀ player ∈ team_data.player.getD [],
      ∀ col ∈ sorted_stat_columns lineup_array,
      (∀ st ∈ player.stat.getD [], st.type ≠ some col) →
      build_stat_row coerce
          (basic_columns ++ sorted_stat_columns lineup_array)
          (sorted_stat_columns lineup_array) (extract_match_id md)
          team_data.contestantId player ∈ rows ∧
      (col, Cell.num none) ∈
        build_stat_row coerce
          (basic_columns ++ sorted_stat_columns lineup_array)
          (sorted_stat_columns lineup_array) (extract_match_id md)
          team_data.contestantId player) := by
  have hany : (all_stat_types lineup_array).any Option.isNone = false := by
    rw [List.any_eq_false]
    intro t ht
    simpa using htyped t ht
  rw [extract_lineup_data, hlu] at hok
  simp only [hany, Bool.false_eq_true, if_false, Except.ok.injEq] at hok
  refine ⟨?_, ?_, sorted_stat_columns_sorted lineup_array,
    fun s => mem_sorted_stat_columns lineup_array s, ?_⟩
  · intro row hrow
    rw [← hok] at hrow
    obtain ⟨td, htd, hx⟩ := List.mem_flatMap.mp hrow
    obtain ⟨p, hp, hrow2⟩ := List.mem_map.mp hx
    rw [← hrow2]
    exact build_stat_row_columns coerce _ _ _ _ p
  · rw [List.nodup_append]
    exact ⟨by decide, sorted_stat_columns_nodup lineup_array,
      List.disjoint_right.mpr hdisj⟩
  · intro td htd p hp col hcol hlacks
    constructor
    · rw [← hok]
      exact List.mem_flatMap.mpr ⟨td, htd, List.mem_map.mpr ⟨p, hp, rfl⟩⟩
    · refine build_stat_row_null_cell coerce _ _ _ _ p col ?_ hcol ?_
      · exact List.mem_append_right _ hcol
      · exact player_info_dict_get_none _ _ p col (hdisj col hcol) hlacks

/-- Helper: the statistic columns discovered in the example lineup. -/
theorem exTeam_sorted_columns :
    sorted_stat_columns [exTeam] = ["goals", "passes"] := by
  rw [sorted_stat_columns]
  have h1 : ((all_stat_types [exTeam]).filterMap id).dedup =
      ["goals", "passes"] := by decide
  rw [h1]
  have hgp : ("goals" : String) ≤ "passes" := by
    rw [String.le_iff_toList_le]
    decide
  refine List.mergeSort_of_sorted ?_
  refine List.pairwise_cons.mpr ⟨?_, List.pairwise_singleton _ _⟩
  intro b hb
  rw [List.mem_singleton] at hb
  subst hb
  exact decide_eq_true hgp

/-- C8 witness: in the example lineup, Bob's row lists exactly the identity
columns followed by the sorted statistic columns, and his missing `goals`
statistic is an explicit null cell. -/
theorem C8_witness :
    (build_stat_row String.toInt?
        (basic_columns ++ sorted_stat_columns [exTeam])
        (sorted_stat_columns [exTeam]) (extract_match_id exStatsMatch)
        exTeam.contestantId exPlayer2).map Prod.fst =
      basic_columns ++ sorted_stat_columns [exTeam] ∧
    ("goals", Cell.num none) ∈
      build_stat_row String.toInt?
        (basic_columns ++ sorted_stat_columns [exTeam])
        (sorted_stat_columns [exTeam]) (extract_match_id exStatsMatch)
        exTeam.contestantId exPlayer2 := by
  have h := C8_uniform_wide_rows String.toInt? exStatsMatch [exTeam]
    [build_stat_row String.toInt?
        (basic_columns ++ sorted_stat_columns [exTeam])
        (sorted_stat_columns [exTeam]) (extract_match_id exStatsMatch)
        exTeam.contestantId exPlayer1,
     build_stat_row String.toInt?
        (basic_columns ++ sorted_stat_columns [exTeam])
        (sorted_stat_columns [exTeam]) (extract_match_id exStatsMatch)
        exTeam.contestantId exPlayer2]
    rfl (by decide) (by rw [exTeam_sorted_columns]; decide) rfl
  refine ⟨h.1 _ (List.mem_cons_of_mem _ (List.mem_cons_self _ _)),
    (h.2.2.2.2 exTeam (List.mem_cons_self _ _) exPlayer2 ?_ "goals" ?_
      (by decide)).2⟩
  · decide
  · rw [exTeam_sorted_columns]; decide
